import Mathlib

/-!
Verification of the metastream streaming core against its specification.

The definitions below are a shallow embedding of the stream-lifecycle code:

* `src/app/tasks/stream.py`   — scheduler duties, supervisor task, kill task
* `src/app/routers/dashboard.py` — the control-surface cancel endpoint
* `src/app/utils/ffmpeg.py`   — the media prober (`get_video_duration`)
* `src/app/models/*.py`       — the row shapes of Stream, Channel, Video

Timestamps and durations are modelled as rationals (seconds); database rows
are records; Python truthiness of nullable strings is made explicit; OS and
subprocess interactions are parameters describing the outcome of each call.
-/

namespace Metastream

/-- Stream status enum: `scheduled, live, ended, cancelled`
    (`src/app/models/stream.py`, column `status`). -/
inductive Status where
  | scheduled
  | live
  | ended
  | cancelled
deriving DecidableEq, Repr

/-- The fields of a `StreamSchedule` row that the core mutates or reads
    (`src/app/models/stream.py`).  `start_time` is an absolute timestamp in
    seconds, `duration` the non-nullable integer seconds column. -/
structure StreamRow where
  status : Status
  start_time : ℚ
  duration : ℤ
  started_at : Option ℚ
  ended_at : Option ℚ
  error_message : Option String
deriving DecidableEq, Repr

/-- `Channel` row: both RTMP fields are nullable (`src/app/models/channel.py`). -/
structure ChannelRow where
  rtmp_url : Option String
  rtmp_key : Option String
deriving DecidableEq, Repr

/-- `Video` row: `original_file` is non-nullable, `processed_file` nullable
    (`src/app/models/video.py`). -/
structure VideoRow where
  status : String
  original_file : String
  processed_file : Option String
deriving DecidableEq, Repr

/-- Python truthiness of a nullable string: `None` and `""` are falsy. -/
def pyTruthy : Option String → Bool
  | none => false
  | some s => s ≠ ""

/-- Outcome of running the `ffprobe` subprocess in `get_video_duration`
    (`src/app/utils/ffmpeg.py:23-42`): either some exception was raised
    (binary absent, 30s timeout, OS error), or the process exited with a
    return code and captured stdout. -/
inductive ProbeExec where
  | raised
  | exited (returncode : ℤ) (stdout : String)
deriving DecidableEq, Repr

/-- `get_video_duration` (`src/app/utils/ffmpeg.py:23-42`): on exit code 0 the
    stripped stdout is parsed by Python `float(...)`; a parse failure raises
    and is caught by the blanket `except`, as is any failure to run ffprobe;
    every failure path returns `0.0`.  `parseFloat` models `float ∘ strip`. -/
def get_video_duration (parseFloat : String → Option ℚ) (exec : ProbeExec) : ℚ :=
  match exec with
  | .raised => 0
  | .exited returncode stdout =>
    if returncode = 0 then
      match parseFloat stdout with
      | some d => d
      | none => 0
    else 0

/-- `max_retry_delay = 30` (`src/app/tasks/stream.py:225`). -/
def max_retry_delay : ℕ := 30

/-- The backoff actually computed before a retry
    (`src/app/tasks/stream.py:455` and `:474`):
    `retry_delay = min(2 ** min(attempt - 1, 4), max_retry_delay)`. -/
def retry_delay (attempt : ℕ) : ℕ :=
  min (2 ^ min (attempt - 1) 4) max_retry_delay

/-- One stream under the expire duty of `check_live_streams`
    (`src/app/tasks/stream.py:559-574`): for a `live` row, if
    `stream.started_at and stream.duration` (truthiness: non-null timestamp,
    non-zero integer) and `now >= started_at + duration + 10`, the row is set
    to `ended` with `ended_at = now`; otherwise it is untouched. -/
def expireOne (now : ℚ) (s : StreamRow) : StreamRow :=
  if s.status = .live then
    match s.started_at with
    | some st =>
      if s.duration ≠ 0 then
        if st + (s.duration : ℚ) + 10 ≤ now then
          { s with status := .ended, ended_at := some now }
        else s
      else s
    | none => s
  else s

/-- One stream under the stale-cancel duty of `check_live_streams`
    (`src/app/tasks/stream.py:576-587`): a `scheduled` row whose
    `start_time` is more than one hour in the past is set to `cancelled`
    (and nothing else is written — in particular `ended_at` stays). -/
def autoCancelStaleOne (now : ℚ) (s : StreamRow) : StreamRow :=
  if s.status = .scheduled ∧ s.start_time < now - 3600 then
    { s with status := .cancelled }
  else s

/-- The whole `check_live_streams` run over a store snapshot
    (`src/app/tasks/stream.py:547-596`): the expire duty followed by the
    stale-cancel duty.  The two queries act on disjoint statuses, so the
    composition per row is faithful to the two successive loops. -/
def check_live_streams (now : ℚ) (store : List StreamRow) : List StreamRow :=
  (store.map (expireOne now)).map (autoCancelStaleOne now)

/-- Result of the dashboard cancel endpoint
    (`src/app/routers/dashboard.py:341-410`). -/
inductive CancelOutcome where
  | notFound
  | badStatus
  | ok
deriving DecidableEq, Repr

/-- `cancel_stream` (`src/app/routers/dashboard.py:341-410`), acting on the
    queried row, the Control Channel entry (`stream:pid:{id}`) and returning
    an HTTP-level outcome.  A missing row raises 404; a status outside
    `{scheduled, live}` raises 400; on the `live` path the process is killed
    and the pid entry deleted when present; finally the row gets
    `status = cancelled`, `ended_at = now` and nothing else is written. -/
def cancel_stream (now : ℚ) (found : Option StreamRow) (ctrl : Option ℕ) :
    CancelOutcome × Option StreamRow × Option ℕ :=
  match found with
  | none => (.notFound, none, ctrl)
  | some row =>
    if row.status = .scheduled ∨ row.status = .live then
      let ctrl' := if row.status = .live then none else ctrl
      (.ok, some { row with status := .cancelled, ended_at := some now }, ctrl')
    else
      (.badStatus, some row, ctrl)

/-- Outcome of `os.getpgid(pid)` fused with the subsequent `os.killpg`
    (`src/app/tasks/stream.py:650-651`): success, `ProcessLookupError`,
    or another `OSError`. -/
inductive PgOp where
  | ok
  | lookupError
  | osError
deriving DecidableEq, Repr

/-- Outcome of a direct `os.kill(pid, sig)` fallback
    (`src/app/tasks/stream.py:661`). -/
inductive KillOp where
  | ok
  | lookupError
deriving DecidableEq, Repr

/-- The OS-call outcomes a single `kill_stream_process` run can observe.
    Only the SIGTERM phase can change the returned result; the SIGKILL and
    reaping phase (`src/app/tasks/stream.py:668-697`) swallows every
    exception and returns nothing, so it needs no parameters here. -/
structure KillEnv where
  getpgidTerm : PgOp
  killTerm : KillOp
deriving DecidableEq, Repr

/-- The dict returned by `kill_stream_process`. -/
structure KillResult where
  success : Bool
  message : Option String
  error : Option String
deriving DecidableEq, Repr

/-- `kill_stream_process` (`src/app/tasks/stream.py:627-712`): reads the pid
    for the stream from the Control Channel; if absent it does nothing and
    returns `{"success": False, "message": "No PID found in Redis"}`
    (lines 706-708).  If present it signals the process group (with the
    fallbacks of lines 647-666), deletes the pid entry and reports success.
    The function never touches the Durable Store at all. -/
def kill_stream_process (env : KillEnv) (ctrl : Option ℕ) :
    KillResult × Option ℕ :=
  match ctrl with
  | none =>
    ({ success := false, message := some "No PID found in Redis", error := none }, ctrl)
  | some pid =>
    match env.getpgidTerm with
    | .lookupError =>
      ({ success := true, message := some "Process already terminated", error := none }, none)
    | .osError =>
      match env.killTerm with
      | .lookupError =>
        ({ success := true, message := some "Process already terminated", error := none }, none)
      | .ok =>
        ({ success := true,
           message := some ("Process " ++ toString pid ++ " killed successfully"),
           error := none }, none)
    | .ok =>
      ({ success := true,
         message := some ("Process " ++ toString pid ++ " killed successfully"),
         error := none }, none)

/-- Environment of the claim-and-validate step of `start_stream_task`:
    the filesystem (`os.path.exists`), the ffprobe outcome for the resolved
    video file, and the Python `float` parser used on its stdout. -/
structure ClaimEnv where
  fileExists : String → Bool
  probe : ProbeExec
  parseFloat : String → Option ℚ

/-- How the claim-and-validate step of `start_stream_task`
    (`src/app/tasks/stream.py:110-172`) leaves the task: each cancellation
    names the failed precondition; `proceed` carries the resolved file and
    probed duration and is the only outcome that goes live and enters the
    resume loop. -/
inductive ClaimOutcome where
  | notFound
  | alreadyClaimed (st : Status)
  | staleCancelled
  | channelCancelled
  | videoCancelled
  | fileCancelled
  | durationCancelled
  | proceed (videoFile : String) (videoDuration : ℚ)
deriving DecidableEq, Repr

/-- The file actually streamed (`src/app/tasks/stream.py:148`):
    `video.processed_file if video.processed_file and os.path.exists(...)
    else video.original_file`. -/
def resolved_video_file (fs : String → Bool) (v : VideoRow) : String :=
  match v.processed_file with
  | some p => if p ≠ "" ∧ fs p then p else v.original_file
  | none => v.original_file

/-- The claim-and-validate step of `start_stream_task`
    (`src/app/tasks/stream.py:110-172`), returning the outcome and the
    stream row as committed.  Mirrors the source order: row missing → status
    not `scheduled` → more than 600s past `start_time` → channel RTMP config
    (`not channel or not channel.rtmp_url or not channel.rtmp_key`) → video
    ready → resolved file exists → probed duration positive → go live
    (`status = "live"`, `started_at = now`).  Every cancellation writes only
    `status = "cancelled"`; none of them writes `error_message`. -/
def claimAndValidate (env : ClaimEnv) (now : ℚ) (found : Option StreamRow)
    (channel : Option ChannelRow) (video : Option VideoRow) :
    ClaimOutcome × Option StreamRow :=
  match found with
  | none => (.notFound, none)
  | some row =>
    if row.status ≠ .scheduled then
      (.alreadyClaimed row.status, some row)
    else if 600 < now - row.start_time then
      (.staleCancelled, some { row with status := .cancelled })
    else
      match channel with
      | none => (.channelCancelled, some { row with status := .cancelled })
      | some ch =>
        if ¬ pyTruthy ch.rtmp_url ∨ ¬ pyTruthy ch.rtmp_key then
          (.channelCancelled, some { row with status := .cancelled })
        else
          match video with
          | none => (.videoCancelled, some { row with status := .cancelled })
          | some v =>
            if v.status ≠ "ready" then
              (.videoCancelled, some { row with status := .cancelled })
            else
              let vf := resolved_video_file env.fileExists v
              if vf = "" ∨ ¬ env.fileExists vf then
                (.fileCancelled, some { row with status := .cancelled })
              else
                let dur := get_video_duration env.parseFloat env.probe
                if dur ≤ 0 then
                  (.durationCancelled, some { row with status := .cancelled })
                else
                  (.proceed vf dur,
                   some { row with status := .live, started_at := some now })

/-- The top-level exception handler of `start_stream_task`
    (`src/app/tasks/stream.py:488-498`): the only place that writes
    `error_message`, together with `status = "cancelled"`. -/
def fatalCancel (msg : String) (row : StreamRow) : StreamRow :=
  { row with status := .cancelled, error_message := some msg }

/-- What one iteration of the resume loop observes
    (`src/app/tasks/stream.py:232-477`): the top-of-loop `db.refresh` saw a
    status other than `live` (break), or the child process ran for `runDur`
    wall-clock seconds and exited with `exitCode` (forced kills included as
    non-zero codes), or an exception was raised while monitoring the child
    (the inner `except`, which skips the offset update). -/
inductive IterEvent where
  | cancelled
  | run (runDur : ℚ) (exitCode : ℤ)
  | exn
deriving DecidableEq, Repr

/-- How the resume loop of `start_stream_task` terminated: `completed` is
    the in-loop return at `src/app/tasks/stream.py:422-430`; `broke` the
    `break` on a status change (line 240); `guardExit` the `while` guard
    turning false; `fuelOut` only marks exhaustion of the observed events. -/
inductive LoopOutcome where
  | completed (offset : ℚ) (attempts : ℕ)
  | broke (offset : ℚ)
  | guardExit (offset : ℚ)
  | fuelOut (offset : ℚ)
deriving DecidableEq, Repr

/-- A run of the resume loop: the offset after each child exit, the backoff
    delays slept, and how the loop terminated. -/
structure LoopRun where
  offsets : List ℚ
  delays : List ℕ
  outcome : LoopOutcome
deriving DecidableEq, Repr

/-- The resume loop of `start_stream_task` (`src/app/tasks/stream.py:232-477`)
    over a list of observed iteration events.  `off` is `offset_seconds`,
    `att` the `attempt` counter before the iteration's `attempt += 1`.
    For a child exit: `offset_seconds += run_duration` (line 415); if
    `offset >= video_duration` the loop returns completed (lines 422-430);
    exit code 0 just loops again (lines 433-436); a non-zero exit sleeps
    `retry_delay` (lines 454-457), as does the exception path (473-476). -/
def runLoop (dur : ℚ) : ℚ → ℕ → List IterEvent → LoopRun
  | off, _, [] => ⟨[], [], .fuelOut off⟩
  | off, att, e :: es =>
    if dur ≤ off then ⟨[], [], .guardExit off⟩
    else
      match e with
      | .cancelled => ⟨[], [], .broke off⟩
      | .exn =>
        let r := runLoop dur off (att + 1) es
        ⟨r.offsets, retry_delay (att + 1) :: r.delays, r.outcome⟩
      | .run d c =>
        let off' := off + d
        if dur ≤ off' then ⟨[off'], [], .completed off' (att + 1)⟩
        else if c = 0 then
          let r := runLoop dur off' (att + 1) es
          ⟨off' :: r.offsets, r.delays, r.outcome⟩
        else
          let r := runLoop dur off' (att + 1) es
          ⟨off' :: r.offsets, retry_delay (att + 1) :: r.delays, r.outcome⟩

/-- Final effect of the live phase of `start_stream_task` on its row and the
    Control Channel entry, plus the `completed` flag of the returned dict. -/
structure SuperResult where
  row : StreamRow
  ctrl : Option ℕ
  completed : Bool
deriving DecidableEq, Repr

/-- The live phase of `start_stream_task` after the transition to `live`:
    run the resume loop from offset 0; the in-loop completion return sets
    `status = "ended"`, `ended_at = now`, deletes the pid key and reports
    `completed: True` (`src/app/tasks/stream.py:422-430`); any other loop
    exit does the same writes but reports `completed: False`
    (lines 479-486). -/
def superviseLive (dur : ℚ) (events : List IterEvent) (endNow : ℚ)
    (row : StreamRow) : SuperResult :=
  let r := runLoop dur 0 0 events
  match r.outcome with
  | .completed _ _ =>
    ⟨{ row with status := .ended, ended_at := some endNow }, none, true⟩
  | _ =>
    ⟨{ row with status := .ended, ended_at := some endNow }, none, false⟩

/-- Every mutation of a Stream row performed by the core: the supervisor
    paths of `start_stream_task`, the two `check_live_streams` duties, and
    the dashboard cancel.  Each constructor cites the lines it embeds. -/
inductive Event where
  | superStaleCancel
  | superPrecondCancel
  | superGoLive (now : ℚ)
  | superCompleteEnded (now : ℚ)
  | superLoopExitEnded (now : ℚ)
  | superFatalCancel (msg : String)
  | schedExpireEnded (now : ℚ)
  | schedStaleCancel
  | controlCancel (now : ℚ)
deriving DecidableEq, Repr

/-- Field writes of each core mutation on a Stream row:
    `superStaleCancel` is `src/app/tasks/stream.py:127`;
    `superPrecondCancel` lines 134, 142, 150, 165;
    `superGoLive` lines 170-171; `superCompleteEnded` lines 426-427;
    `superLoopExitEnded` lines 481-482; `superFatalCancel` lines 493-494;
    `schedExpireEnded` lines 571-572; `schedStaleCancel` line 585;
    `controlCancel` is `src/app/routers/dashboard.py:405-406`. -/
def applyEvent (s : StreamRow) : Event → StreamRow
  | .superStaleCancel => { s with status := .cancelled }
  | .superPrecondCancel => { s with status := .cancelled }
  | .superGoLive n => { s with status := .live, started_at := some n }
  | .superCompleteEnded n => { s with status := .ended, ended_at := some n }
  | .superLoopExitEnded n => { s with status := .ended, ended_at := some n }
  | .superFatalCancel m => { s with status := .cancelled, error_message := some m }
  | .schedExpireEnded n => { s with status := .ended, ended_at := some n }
  | .schedStaleCancel => { s with status := .cancelled }
  | .controlCancel n => { s with status := .cancelled, ended_at := some n }

/-- The mutations that write `ended_at`. -/
def setsEndedAt : Event → Bool
  | .superCompleteEnded _ => true
  | .superLoopExitEnded _ => true
  | .schedExpireEnded _ => true
  | .controlCancel _ => true
  | _ => false

/-- The mutations that write `started_at`. -/
def setsStartedAt : Event → Bool
  | .superGoLive _ => true
  | _ => false

/-- A freshly created stream row: scheduling API creates rows in status
    `scheduled` with null runtime markers (`src/app/models/stream.py`). -/
def newStream (startTime : ℚ) (durSecs : ℤ) : StreamRow :=
  { status := .scheduled, start_time := startTime, duration := durSecs,
    started_at := none, ended_at := none, error_message := none }

/-- The claimed invariant of spec §3/§8 on a single row:
    `ended_at` set iff status ∈ {ended, cancelled}; `started_at` set iff
    status ∈ {live, ended} and the resume loop was entered. -/
def c1Invariant (loopEntered : Bool) (s : StreamRow) : Prop :=
  (s.ended_at.isSome ↔ (s.status = .ended ∨ s.status = .cancelled)) ∧
  (s.started_at.isSome ↔ ((s.status = .live ∨ s.status = .ended) ∧ loopEntered))

/-- One worker's position inside the claim step of `start_stream_task`:
    it has not yet read the row, or it has read it and remembered whether
    the status was `scheduled` (`src/app/tasks/stream.py:111-117`), or it is
    finished, having either claimed the stream and entered the resume loop
    (`won = true`, lines 170-172) or aborted silently (`won = false`,
    lines 117-119). -/
inductive ClaimPc where
  | start
  | checked (sawScheduled : Bool)
  | done (won : Bool)
deriving DecidableEq, Repr

/-- Two concurrent dispatches of `start_stream_task` for the same stream id
    racing on the shared status column.  The ORM session does a plain
    `SELECT` followed by an unconditional `UPDATE` on commit — there is no
    conditional update or row lock in the source — so read and write are
    separate atomic actions on the shared store. -/
structure RaceState where
  store : Status
  pc1 : ClaimPc
  pc2 : ClaimPc
deriving DecidableEq, Repr

/-- One worker's next atomic action against the store: the read-and-check
    (`if stream.status != "scheduled": return`), then the commit of
    `status = "live"` when the check passed. -/
def claimStep (store : Status) : ClaimPc → Status × ClaimPc
  | .start => (store, .checked (store = .scheduled))
  | .checked b => if b then (.live, .done true) else (store, .done false)
  | .done b => (store, .done b)

/-- Advance the worker selected by `who` by one atomic action. -/
def raceStep (s : RaceState) (who : Bool) : RaceState :=
  if who then
    let (st, pc) := claimStep s.store s.pc2
    { s with store := st, pc2 := pc }
  else
    let (st, pc) := claimStep s.store s.pc1
    { s with store := st, pc1 := pc }

/-- Run an interleaving of the two dispatches. -/
def runSchedule (s : RaceState) (sched : List Bool) : RaceState :=
  sched.foldl raceStep s

/-- Initial race state: the row is `scheduled`, neither dispatch has run. -/
def raceInit : RaceState := ⟨.scheduled, .start, .start⟩

/-- Number of dispatches that claimed the stream and reached the resume
    loop. -/
def winners (s : RaceState) : ℕ :=
  (if s.pc1 = .done true then 1 else 0) + (if s.pc2 = .done true then 1 else 0)

/-- A run of the child process takes non-negative wall-clock time:
    `run_duration = end_ts - start_ts` with `end_ts >= start_ts`
    (`src/app/tasks/stream.py:267,398-399`). -/
def eventsNonneg (es : List IterEvent) : Prop :=
  ∀ d c, IterEvent.run d c ∈ es → 0 ≤ d

/-- The four precondition failures named by the spec's error taxonomy:
    missing channel RTMP config, video not ready, file absent,
    non-positive probed duration. -/
def isPrecondCancel : ClaimOutcome → Bool
  | .channelCancelled => true
  | .videoCancelled => true
  | .fileCancelled => true
  | .durationCancelled => true
  | _ => false

/-- The expire duty's condition as the spec's claim words it: status `live`,
    non-null `started_at`, non-null `duration` (the column is a non-nullable
    integer, so this last conjunct is vacuous), and
    `now ≥ started_at + duration + 10`. -/
def specExpireCond (now : ℚ) (s : StreamRow) : Prop :=
  s.status = .live ∧ ∃ st, s.started_at = some st ∧ st + (s.duration : ℚ) + 10 ≤ now

/-- The expire duty's condition as the code tests it
    (`src/app/tasks/stream.py:565-570`): truthiness of `started_at` and of
    the integer `duration` (non-ZERO, not merely non-null), then the
    10-second grace comparison. -/
def expireCond (now : ℚ) (s : StreamRow) : Bool :=
  s.status = .live &&
    match s.started_at with
    | some st => s.duration ≠ 0 && st + (s.duration : ℚ) + 10 ≤ now
    | none => false

/-- A channel with complete RTMP configuration, for concrete runs. -/
def okChannel : ChannelRow :=
  { rtmp_url := some "rtmp://host/app", rtmp_key := some "key1234" }

/-- A ready video whose original file is used, for concrete runs. -/
def okVideo : VideoRow :=
  { status := "ready", original_file := "/data/v.mp4", processed_file := none }

/-- A filesystem on which every path exists, for concrete runs. -/
def allFilesExist : String → Bool := fun _ => true

/-- A float parser recognising just the outputs used in concrete runs. -/
def parseFixture : String → Option ℚ :=
  fun s => if s = "12.5" then some (25 / 2) else none

/-- A claim environment whose probe succeeded with duration 12.5s. -/
def goodClaimEnv : ClaimEnv :=
  { fileExists := allFilesExist, probe := .exited 0 "12.5",
    parseFloat := parseFixture }

/-- A claim environment whose ffprobe run raised (absent binary or
    30-second timeout). -/
def failedProbeEnv : ClaimEnv :=
  { fileExists := allFilesExist, probe := .raised, parseFloat := parseFixture }

/-- A live stream whose `duration` column is 0 with `started_at` set:
    reachable because the row's `duration` is copied at scheduling time
    while the supervisor validates only the probed file duration. -/
def zeroDurLive : StreamRow :=
  { status := .live, start_time := 0, duration := 0, started_at := some 100,
    ended_at := none, error_message := none }

/-- A channel row with both RTMP fields null. -/
def noRtmpChannel : ChannelRow := { rtmp_url := none, rtmp_key := none }

/-- A video row still in processing. -/
def processingVideo : VideoRow :=
  { status := "processing", original_file := "/data/v.mp4", processed_file := none }

/-! ## Theorems -/

/-- C3, counterexample: in a run whose first six attempts all fail, the
    sixth failed attempt sleeps 16 seconds, whereas the claimed formula
    `min(2^(attempt-1), 30)` gives 30 — the code caps the exponent at 4
    first, so the backoff never exceeds 16 seconds. -/
theorem C3_counterexample :
    (runLoop 100 0 0 (List.replicate 6 (IterEvent.run 1 1))).delays =
      [1, 2, 4, 8, 16, 16] ∧
    retry_delay 6 ≠ min (2 ^ (6 - 1)) 30 := by
  constructor
  · norm_num [runLoop, retry_delay, max_retry_delay, List.replicate]
  · decide

/-- C3, amended: for every failed attempt `attempt ≥ 1` the delay slept
    before the next attempt is `min(2^(min(attempt-1,4)), 30)`, which equals
    `min(2^(attempt-1), 16)`: exponential backoff capped at 16 seconds, not
    30. -/
theorem C3_backoff_capped_at_16 (attempt : ℕ) :
    retry_delay attempt = min (2 ^ (attempt - 1)) 16 := by
  unfold retry_delay max_retry_delay
  rcases le_or_lt (attempt - 1) 4 with h | h
  · rw [min_eq_left h]
    have h2 : 2 ^ (attempt - 1) ≤ 16 := by
      calc 2 ^ (attempt - 1) ≤ 2 ^ 4 := Nat.pow_le_pow_right (by norm_num) h
        _ = 16 := by norm_num
    rw [min_eq_left (le_trans h2 (by norm_num)), min_eq_left h2]
  · rw [min_eq_right h.le]
    have h2 : 16 ≤ 2 ^ (attempt - 1) := by
      calc (16 : ℕ) = 2 ^ 4 := by norm_num
        _ ≤ 2 ^ (attempt - 1) := Nat.pow_le_pow_right (by norm_num) h.le
    rw [min_eq_right h2]
    norm_num

/-- C5, counterexample: `kill_stream_process` on a stream id with no pid
    published in the Control Channel returns `success = False`, not the
    no-op success the claim states. -/
theorem C5_counterexample :
    (kill_stream_process ⟨.ok, .ok⟩ none).1.success = false := rfl

/-- C5, amended: kill on a stream with no published process id is a no-op
    that raises nothing and leaves the Control Channel entry unchanged (and
    it never touches the Durable Store at all), but the result it returns is
    flagged `success = False` with message `"No PID found in Redis"`. -/
theorem C5_kill_absent_noop (env : KillEnv) :
    kill_stream_process env none =
      ({ success := false, message := some "No PID found in Redis",
         error := none }, none) := rfl

/-- C8: cancelling a `scheduled` stream (whatever its start time, future
    included) returns HTTP success, writes exactly `status = cancelled` and
    `ended_at = now`, leaves `started_at` and every other field of the row
    unchanged, and does not touch the Control Channel. -/
theorem C8_cancel_scheduled_frame (now : ℚ) (row : StreamRow) (ctrl : Option ℕ)
    (h : row.status = .scheduled) :
    cancel_stream now (some row) ctrl =
      (.ok, some { row with status := .cancelled, ended_at := some now }, ctrl) := by
  simp [cancel_stream, h]

/-- C8, witness: the frame theorem at a concrete scheduled stream whose
    start time (100) is in the future of the cancel instant (0). -/
theorem C8_cancel_scheduled_frame_witness :
    cancel_stream 0 (some (newStream 100 60)) none =
      (.ok, some { newStream 100 60 with status := .cancelled, ended_at := some 0 },
       none) :=
  C8_cancel_scheduled_frame 0 (newStream 100 60) none rfl

/-- C9, counterexample: in the interleaving where both dispatches run their
    status read before either commits, both pass the `scheduled` check and
    both reach the resume loop — the read-then-write claim step is not
    atomic, so two winners are possible. -/
theorem C9_counterexample :
    winners (runSchedule raceInit [false, true, false, true]) = 2 := by decide

/-- C9, amended: when the two claim steps happen to be serialized (one
    dispatch's read and conditional write both complete before the other's
    read), exactly one dispatch transitions the row out of `scheduled` and
    reaches the resume loop; the loser aborts silently. -/
theorem C9_serialized_single_winner (a b : Bool) (h : a ≠ b) :
    winners (runSchedule raceInit [a, a, b, b]) = 1 := by
  cases a <;> cases b <;> first
    | exact absurd rfl h
    | decide

/-- C9, witness: dispatch 1 runs to completion before dispatch 2 starts;
    dispatch 1 wins, dispatch 2 aborts. -/
theorem C9_serialized_single_winner_witness :
    winners (runSchedule raceInit [false, false, true, true]) = 1 :=
  C9_serialized_single_winner false true (by decide)

/-- C7, counterexample: a live stream with `started_at` set and
    `duration = 0` (non-null, the column cannot be null) satisfies the
    claim's condition at `now = 1000`, yet the expire duty leaves it
    untouched: the code tests Python truthiness of `duration`, skipping
    zero. -/
theorem C7_counterexample :
    specExpireCond 1000 zeroDurLive ∧
    expireOne 1000 zeroDurLive = zeroDurLive ∧
    (expireOne 1000 zeroDurLive).status ≠ .ended := by
  refine ⟨⟨rfl, 100, rfl, by norm_num [zeroDurLive]⟩, ?_, ?_⟩
  · norm_num [expireOne, zeroDurLive]
  · norm_num [expireOne, zeroDurLive]
    decide

/-- C7, amended: one run of the expire duty sets `status = ended` and
    `ended_at = now` for exactly the live streams with a non-null
    `started_at`, a non-ZERO `duration`, and `now ≥ started_at + duration +
    10`, and changes nothing else on any other stream. -/
theorem C7_expire_characterization (now : ℚ) (s : StreamRow) :
    expireOne now s =
      if expireCond now s then { s with status := .ended, ended_at := some now }
      else s := by
  unfold expireOne expireCond
  cases hsa : s.started_at with
  | none => by_cases hl : s.status = .live <;> simp [hl]
  | some st =>
    by_cases hl : s.status = .live
    · by_cases hd : s.duration = 0
      · simp [hl, hd]
      · by_cases hle : st + (s.duration : ℚ) + 10 ≤ now <;> simp [hl, hd, hle]
    · simp [hl]

/-- C1, counterexample: the supervisor's stale-start path
    (`src/app/tasks/stream.py:125-128`) writes `status = "cancelled"` and
    nothing else, so a fresh scheduled row cancelled there has
    `status = cancelled` with `ended_at` null, refuting
    "`ended_at` is set iff status ∈ {ended, cancelled}". -/
theorem C1_counterexample :
    ¬ c1Invariant false (applyEvent (newStream 0 60) .superStaleCancel) := by
  intro h
  have := h.1.mpr (Or.inr rfl)
  simp [applyEvent, newStream] at this

/-- Every core mutation preserves an already-set `ended_at`, and sets it
    exactly when the event is a transition to `ended` or the dashboard
    cancel. -/
theorem foldl_applyEvent_endedAt (es : List Event) :
    ∀ s : StreamRow, (es.foldl applyEvent s).ended_at.isSome ↔
      (s.ended_at.isSome ∨ ∃ e ∈ es, setsEndedAt e) := by
  induction es with
  | nil => intro s; simp
  | cons e es ih =>
    intro s
    rw [List.foldl_cons, ih]
    cases e <;> simp [applyEvent, setsEndedAt, or_assoc]

/-- Every core mutation preserves an already-set `started_at`, and sets it
    exactly at the go-live transition. -/
theorem foldl_applyEvent_startedAt (es : List Event) :
    ∀ s : StreamRow, (es.foldl applyEvent s).started_at.isSome ↔
      (s.started_at.isSome ∨ ∃ e ∈ es, setsStartedAt e) := by
  induction es with
  | nil => intro s; simp
  | cons e es ih =>
    intro s
    rw [List.foldl_cons, ih]
    cases e <;> simp [applyEvent, setsStartedAt, or_assoc]

/-- C1, amended: over any sequence of core mutations of a freshly created
    row, `started_at` is set iff a go-live transition occurred
    (so it persists into `cancelled` when a fatal error follows go-live),
    and `ended_at` is set iff a transition to `ended` or a Control-Surface
    cancel occurred — the supervisor's stale/precondition/fatal
    cancellations and the scheduler's stale-cancel duty leave `ended_at`
    null. -/
theorem C1_amended_marker_history (s0 : StreamRow) (es : List Event)
    (h1 : s0.started_at = none) (h2 : s0.ended_at = none) :
    ((es.foldl applyEvent s0).ended_at.isSome ↔ ∃ e ∈ es, setsEndedAt e) ∧
    ((es.foldl applyEvent s0).started_at.isSome ↔ ∃ e ∈ es, setsStartedAt e) := by
  rw [foldl_applyEvent_endedAt, foldl_applyEvent_startedAt, h1, h2]
  simp

/-- C1, witness: a fresh row that goes live and then hits a fatal error has
    `started_at` set (go-live occurred) and `ended_at` unset (no ended
    transition and no dashboard cancel occurred). -/
theorem C1_amended_marker_history_witness :
    ((([Event.superGoLive 5, Event.superFatalCancel "boom"].foldl applyEvent
        (newStream 0 60)).ended_at.isSome ↔
      ∃ e ∈ [Event.superGoLive 5, Event.superFatalCancel "boom"], setsEndedAt e) ∧
     (([Event.superGoLive 5, Event.superFatalCancel "boom"].foldl applyEvent
        (newStream 0 60)).started_at.isSome ↔
      ∃ e ∈ [Event.superGoLive 5, Event.superFatalCancel "boom"], setsStartedAt e)) :=
  C1_amended_marker_history (newStream 0 60)
    [Event.superGoLive 5, Event.superFatalCancel "boom"] rfl rfl

/-- Core invariants of the resume loop, by induction over the observed
    events: from any starting offset the recorded offsets are
    non-decreasing, a completed outcome's offset has reached the duration,
    and any recorded offset that reaches the duration is the one the loop
    completed at in that very iteration. -/
theorem runLoop_spec (dur : ℚ) :
    ∀ (es : List IterEvent) (off : ℚ) (att : ℕ), eventsNonneg es →
      List.Chain' (· ≤ ·) (off :: (runLoop dur off att es).offsets) ∧
      (∀ o n, (runLoop dur off att es).outcome = .completed o n → dur ≤ o) ∧
      (∀ o ∈ (runLoop dur off att es).offsets, dur ≤ o →
        ∃ n, (runLoop dur off att es).outcome = .completed o n) := by
  intro es
  induction es with
  | nil => intro off att _; simp [runLoop]
  | cons e es ih =>
    intro off att h
    have htail : eventsNonneg es := fun d c hm => h d c (List.mem_cons_of_mem _ hm)
    cases e with
    | cancelled =>
      simp only [runLoop]
      by_cases hg : dur ≤ off <;> simp [hg]
    | exn =>
      simp only [runLoop]
      by_cases hg : dur ≤ off
      · simp [hg]
      · rw [if_neg hg]
        have := ih off (att + 1) htail
        simpa using this
    | run d c =>
      have hd : 0 ≤ d := h d c (List.mem_cons_self _ _)
      have hle : off ≤ off + d := by linarith
      simp only [runLoop]
      by_cases hg : dur ≤ off
      · simp [hg]
      · rw [if_neg hg]
        by_cases hg2 : dur ≤ off + d
        · rw [if_pos hg2]
          refine ⟨?_, ?_, ?_⟩
          · simp [hle]
          · intro o n heq
            simp only [LoopOutcome.completed.injEq] at heq
            rw [← heq.1]
            exact hg2
          · intro o hm hle2
            simp only [List.mem_singleton] at hm
            exact ⟨att + 1, by rw [hm]⟩
        · rw [if_neg hg2]
          have hrec := ih (off + d) (att + 1) htail
          by_cases hc : c = 0
          · rw [if_pos hc]
            refine ⟨?_, ?_, ?_⟩
            · exact List.Chain'.cons' hrec.1 (fun y hy => by
                simp only [List.head?_cons, Option.mem_def, Option.some.injEq] at hy
                rw [← hy]; exact hle)
            · exact hrec.2.1
            · intro o hm hle2
              simp only [List.mem_cons] at hm
              rcases hm with hm | hm
              · exact absurd (hm ▸ hle2) hg2
              · exact hrec.2.2 o hm hle2
          · rw [if_neg hc]
            refine ⟨?_, ?_, ?_⟩
            · exact List.Chain'.cons' hrec.1 (fun y hy => by
                simp only [List.head?_cons, Option.mem_def, Option.some.injEq] at hy
                rw [← hy]; exact hle)
            · exact hrec.2.1
            · intro o hm hle2
              simp only [List.mem_cons] at hm
              rcases hm with hm | hm
              · exact absurd (hm ▸ hle2) hg2
              · exact hrec.2.2 o hm hle2

/-- C2: in one execution of the resume loop started at offset 0, the
    offsets recorded after each attempt are monotonically non-decreasing
    (each attempt adds a non-negative wall-clock run duration), completion
    is declared only with the offset at or past the probed duration, and
    whenever a recorded offset reaches the duration the loop completes at
    that very offset in that same iteration rather than launching another
    attempt. -/
theorem C2_offset_invariants (dur : ℚ) (es : List IterEvent)
    (h : eventsNonneg es) :
    List.Chain' (· ≤ ·) ((0 : ℚ) :: (runLoop dur 0 0 es).offsets) ∧
    (∀ o n, (runLoop dur 0 0 es).outcome = .completed o n → dur ≤ o) ∧
    (∀ o ∈ (runLoop dur 0 0 es).offsets, dur ≤ o →
      ∃ n, (runLoop dur 0 0 es).outcome = .completed o n) :=
  runLoop_spec dur es 0 0 h

/-- C2, witness: a failed attempt of 4 seconds followed by a clean 7-second
    run against a 10-second video: offsets 0, 4, 11 are non-decreasing and
    the loop completes at 11 on the second attempt. -/
theorem C2_offset_invariants_witness :
    List.Chain' (· ≤ ·)
      ((0 : ℚ) :: (runLoop 10 0 0 [IterEvent.run 4 1, IterEvent.run 7 0]).offsets) ∧
    (∀ o n, (runLoop 10 0 0 [IterEvent.run 4 1, IterEvent.run 7 0]).outcome =
      .completed o n → (10 : ℚ) ≤ o) ∧
    (∀ o ∈ (runLoop 10 0 0 [IterEvent.run 4 1, IterEvent.run 7 0]).offsets,
      (10 : ℚ) ≤ o →
      ∃ n, (runLoop 10 0 0 [IterEvent.run 4 1, IterEvent.run 7 0]).outcome =
        .completed o n) :=
  C2_offset_invariants 10 [IterEvent.run 4 1, IterEvent.run 7 0] (by
    intro d c hm
    simp only [List.mem_cons, List.not_mem_nil, or_false,
      IterEvent.run.injEq] at hm
    rcases hm with ⟨hd, _⟩ | ⟨hd, _⟩ <;> subst hd <;> norm_num)

/-- A `break` out of the resume loop (the top-of-loop status re-check)
    happens only with the offset still short of the duration: the `while`
    guard had just passed. -/
theorem runLoop_broke_lt (dur : ℚ) :
    ∀ (es : List IterEvent) (off : ℚ) (att : ℕ) (o : ℚ),
      (runLoop dur off att es).outcome = .broke o → o < dur := by
  intro es
  induction es with
  | nil => intro off att o h; simp [runLoop] at h
  | cons e es ih =>
    intro off att o h
    cases e with
    | cancelled =>
      simp only [runLoop] at h
      by_cases hg : dur ≤ off
      · rw [if_pos hg] at h; simp at h
      · rw [if_neg hg] at h
        simp only [LoopOutcome.broke.injEq] at h
        rw [← h]
        exact lt_of_not_le hg
    | exn =>
      simp only [runLoop] at h
      by_cases hg : dur ≤ off
      · rw [if_pos hg] at h; simp at h
      · rw [if_neg hg] at h
        exact ih off (att + 1) o (by simpa using h)
    | run d c =>
      simp only [runLoop] at h
      by_cases hg : dur ≤ off
      · rw [if_pos hg] at h; simp at h
      · rw [if_neg hg] at h
        by_cases hg2 : dur ≤ off + d
        · rw [if_pos hg2] at h; simp at h
        · rw [if_neg hg2] at h
          by_cases hc : c = 0
          · rw [if_pos hc] at h
            exact ih (off + d) (att + 1) o (by simpa using h)
          · rw [if_neg hc] at h
            exact ih (off + d) (att + 1) o (by simpa using h)

/-- C6: when the resume loop exits through the status re-check `break`
    (status no longer `live`, e.g. cancelled mid-loop) with the offset still
    short of the total duration, the task records `status = ended`,
    `ended_at = now`, clears the Control Channel pid entry, and reports
    `completed: False` — the stream ends up `ended`, not `cancelled` or
    `live`. -/
theorem C6_loop_exit_records_ended (dur endNow off : ℚ) (es : List IterEvent)
    (row : StreamRow) (h : (runLoop dur 0 0 es).outcome = .broke off) :
    superviseLive dur es endNow row =
      ⟨{ row with status := .ended, ended_at := some endNow }, none, false⟩ ∧
    off < dur := by
  refine ⟨?_, runLoop_broke_lt dur es 0 0 off h⟩
  simp [superviseLive, h]

/-- C6, witness: a 3-second failed attempt, then the re-check observes a
    cancellation; the supervisor records the stream as ended at time 99 with
    the pid entry cleared, and the offset 3 is short of the 10-second
    duration. -/
theorem C6_loop_exit_records_ended_witness :
    superviseLive 10 [IterEvent.run 3 1, IterEvent.cancelled] 99 (newStream 0 10) =
      ⟨{ newStream 0 10 with status := .ended, ended_at := some 99 }, none, false⟩ ∧
    (3 : ℚ) < 10 :=
  C6_loop_exit_records_ended 10 99 3 [IterEvent.run 3 1, IterEvent.cancelled]
    (newStream 0 10)
    (by norm_num [runLoop, retry_delay, max_retry_delay])

/-- C4, counterexample: a concrete run where the channel has no RTMP
    configuration — the claim-and-validate step cancels the stream and
    stops before the resume loop, but the committed row's `error_message`
    is still null: the failure cause is only returned in the task's result
    dict, never written to the row. -/
theorem C4_counterexample :
    claimAndValidate goodClaimEnv 0 (some (newStream 0 60)) (some noRtmpChannel)
        (some okVideo) =
      (.channelCancelled, some { newStream 0 60 with status := .cancelled }) ∧
    isPrecondCancel .channelCancelled = true ∧
    ({ newStream 0 60 with status := .cancelled } : StreamRow).error_message =
      none := by
  refine ⟨?_, rfl, rfl⟩
  simp only [claimAndValidate, goodClaimEnv, noRtmpChannel, okVideo, newStream,
    pyTruthy]
  norm_num

/-- C4, amended: whenever the claim-and-validate step fails one of the four
    preconditions (channel RTMP config missing, video not ready, video file
    absent, non-positive probed duration), it commits exactly
    `status = cancelled`, leaves `error_message` (and every other field)
    unchanged, and stops without entering the resume loop; the failure cause
    is reported only in the task's return value. -/
theorem C4_precond_cancel_without_message (env : ClaimEnv) (now : ℚ)
    (row : StreamRow) (channel : Option ChannelRow) (video : Option VideoRow)
    (outcome : ClaimOutcome) (committed : Option StreamRow)
    (heq : claimAndValidate env now (some row) channel video = (outcome, committed))
    (h : isPrecondCancel outcome = true) :
    committed = some { row with status := .cancelled } ∧
    (∀ vf d, outcome ≠ .proceed vf d) := by
  unfold claimAndValidate at heq
  repeat' split at heq
  all_goals rw [Prod.mk.injEq] at heq
  all_goals obtain ⟨ho, hc⟩ := heq
  all_goals subst ho
  all_goals subst hc
  all_goals simp_all [isPrecondCancel]
  all_goals repeat' split at h
  all_goals simp_all
  all_goals rename_i hscrut
  all_goals repeat' split at hscrut
  all_goals simp_all

/-- C4, witness: the amended theorem at a video still in processing: the
    row is committed cancelled with `error_message` untouched and the task
    does not proceed to the resume loop. -/
theorem C4_precond_cancel_without_message_witness :
    (some { newStream 0 60 with status := Status.cancelled } : Option StreamRow) =
      some { newStream 0 60 with status := Status.cancelled } ∧
    (∀ vf d, ClaimOutcome.videoCancelled ≠ .proceed vf d) := by
  have h := C4_precond_cancel_without_message goodClaimEnv 0 (newStream 0 60)
    (some okChannel) (some processingVideo) ClaimOutcome.videoCancelled
    (some { newStream 0 60 with status := Status.cancelled })
    (by norm_num [claimAndValidate, goodClaimEnv, okChannel, processingVideo,
      newStream, pyTruthy]; simp) rfl
  exact ⟨h.1, h.2⟩

/-- When the claim step reaches a scheduled, non-stale stream whose probe
    yielded a non-positive duration, every branch it can take commits
    `status = cancelled` and none of them proceeds to the resume loop. -/
theorem claimAndValidate_nonpos_duration (env : ClaimEnv) (now : ℚ)
    (row : StreamRow) (channel : Option ChannelRow) (video : Option VideoRow)
    (outcome : ClaimOutcome) (committed : Option StreamRow)
    (heq : claimAndValidate env now (some row) channel video = (outcome, committed))
    (hs : row.status = .scheduled)
    (hdur : get_video_duration env.parseFloat env.probe ≤ 0) :
    committed = some { row with status := .cancelled } ∧
    (∀ vf d, outcome ≠ .proceed vf d) := by
  unfold claimAndValidate at heq
  repeat' split at heq
  all_goals rw [Prod.mk.injEq] at heq
  all_goals obtain ⟨ho, hc⟩ := heq
  all_goals subst ho
  all_goals subst hc
  all_goals simp_all
  all_goals split
  all_goals simp

/-- C10: the prober is total with every failure mapped to exactly `0.0`
    (ffprobe raising — absent binary or 30s timeout —, a non-zero exit code,
    unparsable stdout), making a probe error indistinguishable from a
    zero-length video at this interface; and whenever the probe of a claimed
    stream yields a non-positive duration, `start_stream_task` commits the
    stream as `cancelled` and never proceeds to the resume loop. -/
theorem C10_probe_total_zero_and_cancel (parse : String → Option ℚ) :
    (get_video_duration parse .raised = 0) ∧
    (∀ code stdout, code ≠ 0 → get_video_duration parse (.exited code stdout) = 0) ∧
    (∀ stdout, parse stdout = none → get_video_duration parse (.exited 0 stdout) = 0) ∧
    (∀ (env : ClaimEnv) (now : ℚ) (row : StreamRow) (channel : Option ChannelRow)
        (video : Option VideoRow),
      row.status = .scheduled →
      get_video_duration env.parseFloat env.probe ≤ 0 →
      (claimAndValidate env now (some row) channel video).2 =
        some { row with status := .cancelled } ∧
      (∀ vf d, (claimAndValidate env now (some row) channel video).1 ≠
        .proceed vf d)) := by
  refine ⟨rfl, ?_, ?_, ?_⟩
  · intro code stdout hc
    simp [get_video_duration, hc]
  · intro stdout hp
    simp [get_video_duration, hp]
  · intro env now row channel video hs hdur
    exact claimAndValidate_nonpos_duration env now row channel video
      (claimAndValidate env now (some row) channel video).1
      (claimAndValidate env now (some row) channel video).2 rfl hs hdur

/-- C10, witness: with the probe raising (binary missing or timeout) the
    duration is exactly 0, and a fresh scheduled stream with good channel
    and video is committed `cancelled` without entering the resume loop. -/
theorem C10_probe_total_zero_and_cancel_witness :
    get_video_duration parseFixture ProbeExec.raised = 0 ∧
    (claimAndValidate failedProbeEnv 0 (some (newStream 0 60)) (some okChannel)
        (some okVideo)).2 = some { newStream 0 60 with status := .cancelled } := by
  refine ⟨(C10_probe_total_zero_and_cancel parseFixture).1, ?_⟩
  exact ((C10_probe_total_zero_and_cancel parseFixture).2.2.2 failedProbeEnv 0
    (newStream 0 60) (some okChannel) (some okVideo) rfl
    (by norm_num [failedProbeEnv, get_video_duration])).1

/-- Consistency of the event encoding with the dashboard cancel: the row the
    endpoint commits is exactly the `controlCancel` mutation. -/
theorem cancel_stream_commits_controlCancel (now : ℚ) (row : StreamRow)
    (ctrl : Option ℕ) (h : row.status = .scheduled ∨ row.status = .live) :
    (cancel_stream now (some row) ctrl).2.1 =
      some (applyEvent row (.controlCancel now)) := by
  rcases h with h | h <;> simp [cancel_stream, applyEvent, h]

/-- Consistency of the event encoding with the expire duty: an expired row
    is committed exactly as the `schedExpireEnded` mutation. -/
theorem expireOne_commits_schedExpireEnded (now : ℚ) (s : StreamRow)
    (h : expireCond now s = true) :
    expireOne now s = applyEvent s (.schedExpireEnded now) := by
  rcases hsa : s.started_at with _ | st
  · simp [expireCond, hsa] at h
  · simp only [expireCond, hsa, Bool.and_eq_true, decide_eq_true_eq] at h
    obtain ⟨hl, hd, hle⟩ := h
    simp [expireOne, applyEvent, hsa, hl, hd, hle]

/-- Consistency of the event encoding with the stale-cancel duty: a stale
    scheduled row is committed exactly as the `schedStaleCancel` mutation. -/
theorem autoCancelStale_commits_schedStaleCancel (now : ℚ) (s : StreamRow)
    (h : s.status = .scheduled ∧ s.start_time < now - 3600) :
    autoCancelStaleOne now s = applyEvent s .schedStaleCancel := by
  simp [autoCancelStaleOne, applyEvent, h]

end Metastream
